import Mathlib

/-!
Shallow embedding of `sdk/python/aistore/client/object.py`: the `Object`
handle with its four operations (head_object, get_object, put_object,
delete_object).  Python dicts are association lists, the shared request
dispatcher is an explicit function argument, mutation of the bucket's
query-parameter dict is explicit state passing (each operation returns the
handle as it stands after the call), and exceptions are `Except`.
-/

namespace AIStore

/-- Modelled from the spec: HTTP method name constant `HTTP_METHOD_GET`
imported from `aistore.client.const`, a file not under src/. -/
def HTTP_METHOD_GET : String := "GET"

/-- Modelled from the spec: HTTP method name constant `HTTP_METHOD_HEAD`
imported from `aistore.client.const`, a file not under src/. -/
def HTTP_METHOD_HEAD : String := "HEAD"

/-- Modelled from the spec: HTTP method name constant `HTTP_METHOD_PUT`
imported from `aistore.client.const`, a file not under src/. -/
def HTTP_METHOD_PUT : String := "PUT"

/-- Modelled from the spec: HTTP method name constant `HTTP_METHOD_DELETE`
imported from `aistore.client.const`, a file not under src/. -/
def HTTP_METHOD_DELETE : String := "DELETE"

/-- Modelled from the spec: the archive-path query parameter key
`QParamArchpath` imported from `aistore.client.const`, a file not under
src/; the spec's interface table names the query parameter `archpath`. -/
def QParamArchpath : String := "archpath"

/-- A Python dict with string keys and values, as an insertion-ordered
association list (used for the bucket's `qparam` and for query params). -/
def dictGet : List (String × String) → String → Option String
  | [], _ => none
  | (k', v') :: rest, k => if k' == k then some v' else dictGet rest k

/-- Python `d.update(\x7bk: v\x7d)` as it acts on the dict's contents:
an existing key keeps its position and gets the new value, a new key is
appended.  (The Python call also returns `None`; the embedding of
`get_object` accounts for that separately.) -/
def dictUpdate1 : List (String × String) → String → String → List (String × String)
  | [], k, v => [(k, v)]
  | (k', v') :: rest, k, v =>
      if k' == k then (k', v) :: rest else (k', v') :: dictUpdate1 rest k v

/-- ASCII-lowercase a string character by character, as Python's
`str.lower` acts on the ASCII header keys `requests` stores. -/
def lowerStr (s : String) : String := String.mk (s.data.map Char.toLower)

/-- Lookup in a `requests` CaseInsensitiveDict of response headers:
`resp.headers.get(key)` matches keys case-insensitively. -/
def headersGet (h : List (String × String)) (k : String) : Option String :=
  (h.find? (fun p => lowerStr p.1 == lowerStr k)).map (fun p => p.2)

/-- Accumulate decimal digits, allowing a single underscore between two
digits as Python's `int` does. -/
def pyDigitsAux : Nat → List Char → Option Nat
  | acc, [] => some acc
  | acc, [c] => if c.isDigit then some (acc * 10 + (c.toNat - 48)) else none
  | acc, c :: d :: rest =>
      if c.isDigit then pyDigitsAux (acc * 10 + (c.toNat - 48)) (d :: rest)
      else if c == '_' then
        if d.isDigit then pyDigitsAux (acc * 10 + (d.toNat - 48)) rest else none
      else none

/-- A nonempty digit run (first character must be a digit). -/
def pyDigits : List Char → Option Nat
  | [] => none
  | c :: rest => if c.isDigit then pyDigitsAux (c.toNat - 48) rest else none

/-- Python's `str.strip()` of surrounding whitespace on a character list. -/
def trimChars (l : List Char) : List Char :=
  ((l.dropWhile Char.isWhitespace).reverse.dropWhile Char.isWhitespace).reverse

/-- Python's builtin `int(s)` on a string: optional surrounding whitespace,
optional sign, then a nonempty digit run with optional single underscores
between digits.  `none` models the `ValueError` Python raises otherwise. -/
def pyIntOfString (s : String) : Option Int :=
  match trimChars s.data with
  | '+' :: rest => (pyDigits rest).map (fun n => Int.ofNat n)
  | '-' :: rest => (pyDigits rest).map (fun n => -(Int.ofNat n))
  | l => (pyDigits l).map (fun n => Int.ofNat n)

/-- An HTTP response as seen by this file: only its header mapping is
consumed (the body stays inside the response value handed to ObjStream). -/
structure Response where
  headers : List (String × String)
deriving DecidableEq, Repr

/-- The keyword arguments this file passes to `self.bck.client.request`:
method, path, `params` (a dict or Python `None`), `data` (a request body,
absent for head/get/delete), and the `stream` flag (absent means False). -/
structure HRequest where
  method : String
  path : String
  params : Option (List (String × String))
  data : Option (List Nat)
  stream : Bool
deriving DecidableEq, Repr

/-- Modelled from the spec: the `ObjStream` wrapper from
`aistore.client.types`, a file not under src/ — it carries the declared
content length, checksum value and type, the live response, and the chunk
size for iteration. -/
structure ObjStream where
  content_length : Int
  e_tag : String
  e_tag_type : String
  stream : Response
  chunk_size : Int
deriving DecidableEq, Repr

/-- Modelled from the spec: the Bucket collaborator, holding a bucket name
and the bucket's default query parameters `qparam` (the shared dispatcher
it also holds is passed explicitly to each operation in this embedding). -/
structure Bucket where
  name : String
  qparam : List (String × String)
deriving DecidableEq, Repr

/-- The `Object` handle: `__init__` stores the bucket reference in
`self._bck` and the object name in `self._obj_name`. -/
structure Object where
  _bck : Bucket
  _obj_name : String
deriving DecidableEq, Repr

/-- The `bck` property accessor: returns `self._bck`. -/
def Object.bck (self : Object) : Bucket := self._bck

/-- The `obj_name` property accessor: returns `self._obj_name`. -/
def Object.obj_name (self : Object) : String := self._obj_name

/-- The f-string `f"objects/\x7bself.bck.name\x7d/\x7bself.obj_name\x7d"`
(spaces inside f-string braces do not appear in the output). -/
def objectsPath (b o : String) : String := "objects/" ++ b ++ "/" ++ o

/-- The request issued by `head_object`. -/
def headRequest (self : Object) : HRequest :=
  { method := HTTP_METHOD_HEAD, path := objectsPath self._bck.name self._obj_name,
    params := some self._bck.qparam, data := none, stream := false }

/-- The request issued by `get_object`: because Python `dict.update`
returns `None`, the `params` keyword argument it passes is `None`. -/
def getRequest (self : Object) : HRequest :=
  { method := HTTP_METHOD_GET, path := objectsPath self._bck.name self._obj_name,
    params := none, data := none, stream := true }

/-- The request issued by `put_object`: note the leading slash in its
f-string `f"/objects/..."`, unlike the other three operations. -/
def putRequest (self : Object) (bytes : List Nat) : HRequest :=
  { method := HTTP_METHOD_PUT, path := "/" ++ objectsPath self._bck.name self._obj_name,
    params := some self._bck.qparam, data := some bytes, stream := false }

/-- The request issued by `delete_object`. -/
def deleteRequest (self : Object) : HRequest :=
  { method := HTTP_METHOD_DELETE, path := objectsPath self._bck.name self._obj_name,
    params := some self._bck.qparam, data := none, stream := false }

/-- Outcome of an operation: its result (or propagated error), the list of
requests it handed to the dispatcher, and the handle as it stands after the
call (reflecting any mutation of the bucket's `qparam` dict). -/
structure CallOutcome (ε α : Type) where
  result : Except ε α
  issued : List HRequest
  handleAfter : Object
deriving Repr

/-- `Object.head_object`: one HEAD request with the bucket's default query
parameters; returns the response headers; propagates dispatcher errors. -/
def Object.head_object {ε : Type} (self : Object)
    (client : HRequest → Except ε Response) :
    CallOutcome ε (List (String × String)) :=
  match client (headRequest self) with
  | Except.error e => { result := Except.error e, issued := [headRequest self], handleAfter := self }
  | Except.ok resp => { result := Except.ok resp.headers, issued := [headRequest self], handleAfter := self }

/-- An error escaping `get_object`: either one raised by the dispatcher
(propagated unchanged, tagged `raised` by the embedding's error sum) or
the `ValueError` raised locally by `int()` on a non-numeric
content-length header. -/
inductive PyErr (ε : Type) where
  | raised : ε → PyErr ε
  | valueError : PyErr ε
deriving DecidableEq, Repr

/-- The handle as it stands after `get_object`'s
`self.bck.qparam.update(...)` has mutated the bucket's dict in place. -/
def afterGet (self : Object) (archpath : String) : Object :=
  { _bck := { name := self._bck.name,
              qparam := dictUpdate1 self._bck.qparam QParamArchpath archpath },
    _obj_name := self._obj_name }

/-- `Object.get_object`: evaluates
`params = self.bck.qparam.update(\x7bQParamArchpath: archpath\x7d)`, which
mutates the bucket's `qparam` dict in place and binds `params` to Python
`None`; issues one GET with `params=None` and `stream=True`; then parses
`content-length` with `int()` (raising `ValueError` when the header is
present but not numeric) and reads the two checksum headers with default
`""`; returns an ObjStream. -/
def Object.get_object {ε : Type} (self : Object)
    (client : HRequest → Except ε Response)
    (archpath : String) (chunk_size : Int) :
    CallOutcome (PyErr ε) ObjStream :=
  match client (getRequest self) with
  | Except.error e =>
      { result := Except.error (PyErr.raised e), issued := [getRequest self],
        handleAfter := afterGet self archpath }
  | Except.ok resp =>
      match headersGet resp.headers "content-length" with
      | none =>
          { result := Except.ok
              { content_length := 0,
                e_tag := (headersGet resp.headers "ais-checksum-value").getD "",
                e_tag_type := (headersGet resp.headers "ais-checksum-type").getD "",
                stream := resp, chunk_size := chunk_size },
            issued := [getRequest self], handleAfter := afterGet self archpath }
      | some v =>
          match pyIntOfString v with
          | none =>
              { result := Except.error PyErr.valueError, issued := [getRequest self],
                handleAfter := afterGet self archpath }
          | some n =>
              { result := Except.ok
                  { content_length := n,
                    e_tag := (headersGet resp.headers "ais-checksum-value").getD "",
                    e_tag_type := (headersGet resp.headers "ais-checksum-type").getD "",
                    stream := resp, chunk_size := chunk_size },
                issued := [getRequest self], handleAfter := afterGet self archpath }

/-- An error escaping `put_object`: a filesystem error from `open` or a
dispatcher error (propagated unchanged, tagged `raised`). -/
inductive PutErr (ε : Type) where
  | fsError : String → PutErr ε
  | raised : ε → PutErr ε
deriving DecidableEq, Repr

/-- Observable file-handle events during `put_object`. -/
inductive FileEvent where
  | opened : String → String → FileEvent
  | requested : HRequest → FileEvent
  | closed : String → FileEvent
deriving DecidableEq, Repr

/-- Outcome of `put_object`: result, issued requests, file-handle event
trace, and the handle after the call. -/
structure PutOutcome (ε : Type) where
  result : Except (PutErr ε) (List (String × String))
  issued : List HRequest
  events : List FileEvent
  handleAfter : Object
deriving Repr

/-- `Object.put_object`: `with open(path, "rb") as data:` then one PUT with
the file's bytes as body.  The filesystem `fs` maps (path, mode) to the
file's bytes or an error; the `with` statement's guarantee — the handle is
closed on every exit path, success or exception — is the event trace. -/
def Object.put_object {ε : Type} (self : Object)
    (client : HRequest → Except ε Response)
    (fs : String → String → Except String (List Nat))
    (path : String) : PutOutcome ε :=
  match fs path "rb" with
  | Except.error e =>
      { result := Except.error (PutErr.fsError e), issued := [], events := [], handleAfter := self }
  | Except.ok bytes =>
      match client (putRequest self bytes) with
      | Except.error e =>
          { result := Except.error (PutErr.raised e),
            issued := [putRequest self bytes],
            events := [FileEvent.opened path "rb", FileEvent.requested (putRequest self bytes), FileEvent.closed path],
            handleAfter := self }
      | Except.ok resp =>
          { result := Except.ok resp.headers,
            issued := [putRequest self bytes],
            events := [FileEvent.opened path "rb", FileEvent.requested (putRequest self bytes), FileEvent.closed path],
            handleAfter := self }

/-- `Object.delete_object`: one DELETE with the bucket's default query
parameters, no body; returns `None` on success; propagates errors. -/
def Object.delete_object {ε : Type} (self : Object)
    (client : HRequest → Except ε Response) :
    CallOutcome ε Unit :=
  match client (deleteRequest self) with
  | Except.error e => { result := Except.error e, issued := [deleteRequest self], handleAfter := self }
  | Except.ok _ => { result := Except.ok (), issued := [deleteRequest self], handleAfter := self }

/-- Projection: the content length of a successful `get_object` result. -/
def resultContentLength {ε : Type} : Except (PyErr ε) ObjStream → Option Int
  | Except.ok s => some s.content_length
  | Except.error _ => none

/-- Projection: the checksum value of a successful `get_object` result. -/
def resultETag {ε : Type} : Except (PyErr ε) ObjStream → Option String
  | Except.ok s => some s.e_tag
  | Except.error _ => none

/-- Projection: the checksum type of a successful `get_object` result. -/
def resultETagType {ε : Type} : Except (PyErr ε) ObjStream → Option String
  | Except.ok s => some s.e_tag_type
  | Except.error _ => none

/-- Whether `int(resp.headers.get("content-length", 0))` completes without
raising for the given headers. -/
def contentLengthParses (h : List (String × String)) : Bool :=
  match headersGet h "content-length" with
  | none => true
  | some v => (pyIntOfString v).isSome

/-- Demo bucket used in concrete evaluations. -/
def demoBucket : Bucket := { name := "images", qparam := [("provider", "ais")] }

/-- Demo object handle bound to `demoBucket`. -/
def demoObject : Object := { _bck := demoBucket, _obj_name := "cat.png" }

/-- A dispatcher that always succeeds with an empty header mapping. -/
def okClient : HRequest → Except String Response := fun _ => Except.ok { headers := [] }

/-- A dispatcher whose response carries a non-numeric content-length. -/
def badLenClient : HRequest → Except String Response :=
  fun _ => Except.ok { headers := [("content-length", "abc")] }

/-- A dispatcher whose response carries content-length 12345. -/
def lenClient : HRequest → Except String Response :=
  fun _ => Except.ok { headers := [("content-length", "12345")] }

/-- A dispatcher whose response carries checksum headers only. -/
def checksumClient : HRequest → Except String Response :=
  fun _ => Except.ok { headers := [("ais-checksum-value", "deadbeef"), ("ais-checksum-type", "xxhash")] }

/-- A dispatcher that always raises. -/
def errClient : HRequest → Except String Response := fun _ => Except.error "boom"

/-- A filesystem on which every open succeeds with bytes [1, 2, 3]. -/
def okFs : String → String → Except String (List Nat) := fun _ _ => Except.ok [1, 2, 3]

/-- Updating a key makes it present with the new value. -/
theorem dictGet_dictUpdate1 (d : List (String × String)) (k v : String) :
    dictGet (dictUpdate1 d k v) k = some v := by
  induction d with
  | nil => simp [dictUpdate1, dictGet]
  | cons p rest ih =>
      cases p with
      | mk k' v' =>
          by_cases h : k' == k
          · simp [dictUpdate1, dictGet, h]
          · simp [dictUpdate1, dictGet, h, ih]

/-- Updating one key leaves every other key's value unchanged. -/
theorem dictGet_dictUpdate1_ne (d : List (String × String)) (k v k2 : String)
    (hne : k2 ≠ k) :
    dictGet (dictUpdate1 d k v) k2 = dictGet d k2 := by
  induction d with
  | nil =>
      have hf : (k == k2) = false := by simpa using fun he => hne he.symm
      simp [dictUpdate1, dictGet, hf]
  | cons p rest ih =>
      cases p with
      | mk k' v' =>
          by_cases h : k' = k
          · subst h
            have hf : (k' == k2) = false := by simpa using fun he => hne he.symm
            simp [dictUpdate1, dictGet, hf]
          · have hf : (k' == k) = false := by simpa using h
            by_cases h2 : k' = k2
            · simp [dictUpdate1, dictGet, hf, h2, hne]
            · have hf2 : (k' == k2) = false := by simpa using h2
              simp [dictUpdate1, dictGet, hf, hf2, ih]

/-- head_object always issues exactly its single HEAD request. -/
theorem head_object_issued_eq {ε : Type} (o : Object)
    (client : HRequest → Except ε Response) :
    (Object.head_object o client).issued = [headRequest o] := by
  cases h : client (headRequest o) <;> simp [Object.head_object, h]

/-- head_object never changes the handle or the bucket it references. -/
theorem head_object_handleAfter_eq {ε : Type} (o : Object)
    (client : HRequest → Except ε Response) :
    (Object.head_object o client).handleAfter = o := by
  cases h : client (headRequest o) <;> simp [Object.head_object, h]

/-- get_object always issues exactly its single GET request. -/
theorem get_object_issued_eq {ε : Type} (o : Object)
    (client : HRequest → Except ε Response) (a : String) (cs : Int) :
    (Object.get_object o client a cs).issued = [getRequest o] := by
  cases h : client (getRequest o) with
  | error e => simp [Object.get_object, h]
  | ok resp =>
      cases hcl : headersGet resp.headers "content-length" with
      | none => simp [Object.get_object, h, hcl]
      | some v =>
          cases hn : pyIntOfString v <;> simp [Object.get_object, h, hcl, hn]

/-- After get_object the handle is `afterGet`: same bucket name and object
name, qparam updated in place with the archpath key. -/
theorem get_object_handleAfter_eq {ε : Type} (o : Object)
    (client : HRequest → Except ε Response) (a : String) (cs : Int) :
    (Object.get_object o client a cs).handleAfter = afterGet o a := by
  cases h : client (getRequest o) with
  | error e => simp [Object.get_object, h]
  | ok resp =>
      cases hcl : headersGet resp.headers "content-length" with
      | none => simp [Object.get_object, h, hcl]
      | some v =>
          cases hn : pyIntOfString v <;> simp [Object.get_object, h, hcl, hn]

/-- When the file opens, put_object issues exactly its single PUT request. -/
theorem put_object_issued_eq {ε : Type} (o : Object)
    (client : HRequest → Except ε Response)
    (fs : String → String → Except String (List Nat)) (path : String)
    (bytes : List Nat) (hfs : fs path "rb" = Except.ok bytes) :
    (Object.put_object o client fs path).issued = [putRequest o bytes] := by
  cases h : client (putRequest o bytes) <;> simp [Object.put_object, hfs, h]

/-- put_object never changes the handle or the bucket it references. -/
theorem put_object_handleAfter_eq {ε : Type} (o : Object)
    (client : HRequest → Except ε Response)
    (fs : String → String → Except String (List Nat)) (path : String) :
    (Object.put_object o client fs path).handleAfter = o := by
  cases hf : fs path "rb" with
  | error e => simp [Object.put_object, hf]
  | ok bytes => cases h : client (putRequest o bytes) <;> simp [Object.put_object, hf, h]

/-- delete_object always issues exactly its single DELETE request. -/
theorem delete_object_issued_eq {ε : Type} (o : Object)
    (client : HRequest → Except ε Response) :
    (Object.delete_object o client).issued = [deleteRequest o] := by
  cases h : client (deleteRequest o) <;> simp [Object.delete_object, h]

/-- delete_object never changes the handle or the bucket it references. -/
theorem delete_object_handleAfter_eq {ε : Type} (o : Object)
    (client : HRequest → Except ε Response) :
    (Object.delete_object o client).handleAfter = o := by
  cases h : client (deleteRequest o) <;> simp [Object.delete_object, h]

/-- Claim C9: the constructor stores the bucket reference and the object
name verbatim, and the `bck` and `obj_name` accessors return exactly the
values passed to the constructor, with no side effects — the
constructor-then-accessor round trip is the identity on both components. -/
theorem constructor_accessor_identity (bck : Bucket) (nm : String) :
    (Object.mk bck nm).bck = bck ∧ (Object.mk bck nm).obj_name = nm :=
  ⟨rfl, rfl⟩

/-- Claim C7: delete_object issues exactly one HTTP DELETE request to path
objects/<bucket_name>/<object_name> carrying the bucket's default query
parameters and no body, and its result is the dispatcher's outcome with the
response discarded — the unit value (Python None) on success, the
dispatcher's error unchanged otherwise. -/
theorem delete_object_contract {ε : Type} (bck : Bucket) (nm : String)
    (client : HRequest → Except ε Response) :
    (Object.delete_object (Object.mk bck nm) client).issued =
      [{ method := HTTP_METHOD_DELETE, path := "objects/" ++ bck.name ++ "/" ++ nm,
         params := some bck.qparam, data := none, stream := false }] ∧
    (Object.delete_object (Object.mk bck nm) client).result =
      Except.map (fun _ => ()) (client (deleteRequest (Object.mk bck nm))) := by
  constructor
  · rw [delete_object_issued_eq]; rfl
  · cases h : client (deleteRequest (Object.mk bck nm)) <;>
      simp [Object.delete_object, h, Except.map]

/-- Claim C10: after get_object(archpath = a), the bucket's shared qparam
dict has been mutated in place — it now equals the non-destructive update
of the old dict with the archpath key bound to a, and lookup of that key
yields a — the mutation is visible to a later delete_object on the same
handle, and the GET request itself was issued with params None (Python
dict.update returns None). -/
theorem get_object_qparam_mutation {ε : Type} (o : Object)
    (client client2 : HRequest → Except ε Response) (a : String) (cs : Int) :
    (Object.get_object o client a cs).handleAfter.bck.qparam
      = dictUpdate1 o.bck.qparam QParamArchpath a ∧
    dictGet (Object.get_object o client a cs).handleAfter.bck.qparam QParamArchpath = some a ∧
    (Object.get_object o client a cs).issued.map HRequest.params = [none] ∧
    (Object.delete_object (Object.get_object o client a cs).handleAfter client2).issued =
      [{ method := HTTP_METHOD_DELETE, path := objectsPath o.bck.name o.obj_name,
         params := some (dictUpdate1 o.bck.qparam QParamArchpath a), data := none,
         stream := false }] := by
  refine ⟨?_, ?_, ?_, ?_⟩
  · rw [get_object_handleAfter_eq]; rfl
  · rw [get_object_handleAfter_eq]
    exact dictGet_dictUpdate1 o.bck.qparam QParamArchpath a
  · rw [get_object_issued_eq]; rfl
  · rw [get_object_handleAfter_eq, delete_object_issued_eq]; rfl

/-- Claim C1, evaluated at the failing input: with bucket defaults
provider=ais and archpath "arch/member.txt", the merged parameter set ends
up inside the bucket's own qparam dict, but the GET request is issued with
params None rather than the merged set the claim requires. -/
theorem get_object_params_bug_eval :
    (Object.get_object demoObject okClient "arch/member.txt" 1).handleAfter.bck.qparam
      = [("provider", "ais"), ("archpath", "arch/member.txt")] ∧
    (Object.get_object demoObject okClient "arch/member.txt" 1).issued.map HRequest.params
      = [none] ∧
    (Object.get_object demoObject okClient "arch/member.txt" 1).issued.map HRequest.params
      ≠ [some [("provider", "ais"), ("archpath", "arch/member.txt")]] := by
  refine ⟨by decide, by decide, by decide⟩

/-- Claim C2 (counterexample): with bucket "images" and object "cat.png",
put_object issues its request to "/objects/images/cat.png" — with a leading
slash — while head_object issues to "objects/images/cat.png", so the three
write-side paths are not the identical string objects/<bucket>/<object>. -/
theorem put_path_leading_slash :
    (Object.put_object demoObject okClient okFs "/tmp/cat.png").issued.map HRequest.path
      = ["/objects/images/cat.png"] ∧
    (Object.head_object demoObject okClient).issued.map HRequest.path
      = ["objects/images/cat.png"] ∧
    ("/objects/images/cat.png" : String) ≠ "objects/images/cat.png" := by
  refine ⟨by decide, by decide, by decide⟩

/-- Claim C2 (amended): head_object and delete_object issue their request
to the path objects/<bucket_name>/<object_name> and get_object issues to
that same path, but put_object issues to "/objects/<bucket_name>/<object_name>"
— identical except for a leading slash. -/
theorem object_request_paths {ε : Type} (bck : Bucket) (nm : String)
    (client : HRequest → Except ε Response)
    (fs : String → String → Except String (List Nat)) (path : String)
    (bytes : List Nat) (a : String) (cs : Int)
    (hfs : fs path "rb" = Except.ok bytes) :
    (Object.head_object (Object.mk bck nm) client).issued.map HRequest.path
      = [objectsPath bck.name nm] ∧
    (Object.delete_object (Object.mk bck nm) client).issued.map HRequest.path
      = [objectsPath bck.name nm] ∧
    (Object.get_object (Object.mk bck nm) client a cs).issued.map HRequest.path
      = [objectsPath bck.name nm] ∧
    (Object.put_object (Object.mk bck nm) client fs path).issued.map HRequest.path
      = ["/" ++ objectsPath bck.name nm] := by
  refine ⟨?_, ?_, ?_, ?_⟩
  · rw [head_object_issued_eq]; rfl
  · rw [delete_object_issued_eq]; rfl
  · rw [get_object_issued_eq]; rfl
  · rw [put_object_issued_eq (Object.mk bck nm) client fs path bytes hfs]; rfl

/-- Witness for C2's amended theorem at a concrete bucket, object, client
and filesystem. -/
theorem object_request_paths_witness :
    (Object.head_object (Object.mk demoBucket "cat.png") okClient).issued.map HRequest.path
      = [objectsPath demoBucket.name "cat.png"] ∧
    (Object.delete_object (Object.mk demoBucket "cat.png") okClient).issued.map HRequest.path
      = [objectsPath demoBucket.name "cat.png"] ∧
    (Object.get_object (Object.mk demoBucket "cat.png") okClient "" 1).issued.map HRequest.path
      = [objectsPath demoBucket.name "cat.png"] ∧
    (Object.put_object (Object.mk demoBucket "cat.png") okClient okFs "/tmp/cat.png").issued.map HRequest.path
      = ["/" ++ objectsPath demoBucket.name "cat.png"] :=
  object_request_paths demoBucket "cat.png" okClient okFs "/tmp/cat.png" [1, 2, 3] "" 1 rfl

/-- Claim C3 (counterexample): a response whose content-length header holds
the non-numeric string "abc" makes get_object raise ValueError — it does
not return a stream with content length 0. -/
theorem content_length_nonnumeric_raises :
    (Object.get_object demoObject badLenClient "" 1).result = Except.error PyErr.valueError ∧
    resultContentLength (Object.get_object demoObject badLenClient "" 1).result ≠ some 0 := by
  refine ⟨rfl, by decide⟩

/-- Claim C3 (amended): the stream returned by get_object has
content_length equal to the integer value of the content-length response
header when that header parses as a Python int, and equal to 0 when the
header is absent; when the header is present but non-numeric, get_object
raises ValueError instead of returning a stream. -/
theorem get_object_content_length {ε : Type} (o : Object)
    (client : HRequest → Except ε Response) (resp : Response) (a : String) (cs : Int)
    (hresp : client (getRequest o) = Except.ok resp) :
    (headersGet resp.headers "content-length" = none →
      resultContentLength (Object.get_object o client a cs).result = some 0) ∧
    (∀ v n, headersGet resp.headers "content-length" = some v → pyIntOfString v = some n →
      resultContentLength (Object.get_object o client a cs).result = some n) ∧
    (∀ v, headersGet resp.headers "content-length" = some v → pyIntOfString v = none →
      (Object.get_object o client a cs).result = Except.error PyErr.valueError) := by
  refine ⟨?_, ?_, ?_⟩
  · intro hcl
    simp [Object.get_object, hresp, hcl, resultContentLength]
  · intro v n hcl hn
    simp [Object.get_object, hresp, hcl, hn, resultContentLength]
  · intro v hcl hn
    simp [Object.get_object, hresp, hcl, hn]

/-- Witness for C3's amended theorem: a content-length header of "12345"
yields a stream whose content_length is 12345. -/
theorem get_object_content_length_witness :
    resultContentLength (Object.get_object demoObject lenClient "" 1).result = some 12345 :=
  (get_object_content_length demoObject lenClient
      { headers := [("content-length", "12345")] } "" 1 rfl).2.1 "12345" 12345
    (by decide) (by decide)

/-- Claim C4: the stream returned by get_object carries a checksum value
equal to the ais-checksum-value response header and a checksum type equal
to the ais-checksum-type response header when those are present, and the
empty string for each that is absent; a missing checksum header never makes
get_object raise (given the content-length parse itself succeeds). -/
theorem get_object_checksums {ε : Type} (o : Object)
    (client : HRequest → Except ε Response) (resp : Response) (a : String) (cs : Int)
    (hresp : client (getRequest o) = Except.ok resp)
    (hlen : contentLengthParses resp.headers = true) :
    resultETag (Object.get_object o client a cs).result
      = some ((headersGet resp.headers "ais-checksum-value").getD "") ∧
    resultETagType (Object.get_object o client a cs).result
      = some ((headersGet resp.headers "ais-checksum-type").getD "") := by
  cases hcl : headersGet resp.headers "content-length" with
  | none =>
      constructor <;> simp [Object.get_object, hresp, hcl, resultETag, resultETagType]
  | some v =>
      simp only [contentLengthParses, hcl] at hlen
      cases hn : pyIntOfString v with
      | none => rw [hn] at hlen; simp at hlen
      | some n =>
          constructor <;> simp [Object.get_object, hresp, hcl, hn, resultETag, resultETagType]

/-- Witness for C4 at a response carrying both checksum headers and no
content-length header. -/
theorem get_object_checksums_witness :
    resultETag (Object.get_object demoObject checksumClient "" 1).result = some "deadbeef" ∧
    resultETagType (Object.get_object demoObject checksumClient "" 1).result = some "xxhash" := by
  have h := get_object_checksums demoObject checksumClient
      { headers := [("ais-checksum-value", "deadbeef"), ("ais-checksum-type", "xxhash")] }
      "" 1 rfl (by decide)
  simpa using h

/-- Claim C5: put_object opens the local file in binary read mode ("rb")
before issuing the network call, and the file handle is closed on every
exit path — for every dispatcher (succeeding or raising), the event trace
is exactly open, request, close. -/
theorem put_object_file_handle_safety {ε : Type} (o : Object)
    (client : HRequest → Except ε Response)
    (fs : String → String → Except String (List Nat)) (path : String)
    (bytes : List Nat) (hfs : fs path "rb" = Except.ok bytes) :
    (Object.put_object o client fs path).events
      = [FileEvent.opened path "rb", FileEvent.requested (putRequest o bytes),
         FileEvent.closed path] := by
  cases h : client (putRequest o bytes) <;> simp [Object.put_object, hfs, h]

/-- Witness for C5, both with a succeeding dispatcher and with one that
raises: the file is opened in "rb" mode and closed either way. -/
theorem put_object_file_handle_safety_witness :
    (Object.put_object demoObject okClient okFs "/tmp/cat.png").events
      = [FileEvent.opened "/tmp/cat.png" "rb",
         FileEvent.requested (putRequest demoObject [1, 2, 3]),
         FileEvent.closed "/tmp/cat.png"] ∧
    (Object.put_object demoObject errClient okFs "/tmp/cat.png").events
      = [FileEvent.opened "/tmp/cat.png" "rb",
         FileEvent.requested (putRequest demoObject [1, 2, 3]),
         FileEvent.closed "/tmp/cat.png"] :=
  ⟨put_object_file_handle_safety demoObject okClient okFs "/tmp/cat.png" [1, 2, 3] rfl,
   put_object_file_handle_safety demoObject errClient okFs "/tmp/cat.png" [1, 2, 3] rfl⟩

/-- Claim C6: when the dispatcher raises, every operation surfaces that
error to its caller unchanged — head_object and delete_object return the
very error value, get_object and put_object return it through the
embedding's error-sum injection `raised` — with no catching, retrying,
status-code inspection or fallback result. -/
theorem dispatcher_errors_propagate {ε : Type} (o : Object)
    (client : HRequest → Except ε Response) (e : ε)
    (fs : String → String → Except String (List Nat)) (path : String)
    (bytes : List Nat) (a : String) (cs : Int)
    (hc : ∀ r, client r = Except.error e)
    (hfs : fs path "rb" = Except.ok bytes) :
    (Object.head_object o client).result = Except.error e ∧
    (Object.get_object o client a cs).result = Except.error (PyErr.raised e) ∧
    (Object.put_object o client fs path).result = Except.error (PutErr.raised e) ∧
    (Object.delete_object o client).result = Except.error e := by
  refine ⟨?_, ?_, ?_, ?_⟩
  · simp [Object.head_object, hc]
  · simp [Object.get_object, hc]
  · simp [Object.put_object, hfs, hc]
  · simp [Object.delete_object, hc]

/-- Witness for C6 with a dispatcher that always raises "boom". -/
theorem dispatcher_errors_propagate_witness :
    (Object.head_object demoObject errClient).result = Except.error "boom" ∧
    (Object.get_object demoObject errClient "" 1).result = Except.error (PyErr.raised "boom") ∧
    (Object.put_object demoObject errClient okFs "/tmp/cat.png").result
      = Except.error (PutErr.raised "boom") ∧
    (Object.delete_object demoObject errClient).result = Except.error "boom" :=
  dispatcher_errors_propagate demoObject errClient "boom" okFs "/tmp/cat.png" [1, 2, 3] "" 1
    (fun _ => rfl) rfl

/-- Claim C8: every operation hands exactly one request to the dispatcher
per call (put_object once its file is open) and leaves the handle's stored
identity — the bound bucket and the object name — in place: head, put and
delete return the handle unchanged, and get changes only the bucket's
qparam dict, never the bucket name or the object name; the handle's two
fields are its only state, so no response data is cached. -/
theorem one_request_per_call {ε : Type} (o : Object)
    (client : HRequest → Except ε Response)
    (fs : String → String → Except String (List Nat)) (path : String)
    (bytes : List Nat) (a : String) (cs : Int)
    (hfs : fs path "rb" = Except.ok bytes) :
    (Object.head_object o client).issued.length = 1 ∧
    (Object.head_object o client).handleAfter = o ∧
    (Object.get_object o client a cs).issued.length = 1 ∧
    (Object.get_object o client a cs).handleAfter.bck.name = o.bck.name ∧
    (Object.get_object o client a cs).handleAfter.obj_name = o.obj_name ∧
    (Object.put_object o client fs path).issued.length = 1 ∧
    (Object.put_object o client fs path).handleAfter = o ∧
    (Object.delete_object o client).issued.length = 1 ∧
    (Object.delete_object o client).handleAfter = o := by
  refine ⟨?_, ?_, ?_, ?_, ?_, ?_, ?_, ?_, ?_⟩
  · rw [head_object_issued_eq]; rfl
  · exact head_object_handleAfter_eq o client
  · rw [get_object_issued_eq]; rfl
  · rw [get_object_handleAfter_eq]; rfl
  · rw [get_object_handleAfter_eq]; rfl
  · rw [put_object_issued_eq o client fs path bytes hfs]; rfl
  · exact put_object_handleAfter_eq o client fs path
  · rw [delete_object_issued_eq]; rfl
  · exact delete_object_handleAfter_eq o client

/-- Witness for C8 at a concrete handle, dispatcher and filesystem. -/
theorem one_request_per_call_witness :
    (Object.head_object demoObject okClient).issued.length = 1 ∧
    (Object.head_object demoObject okClient).handleAfter = demoObject ∧
    (Object.get_object demoObject okClient "" 1).issued.length = 1 ∧
    (Object.get_object demoObject okClient "" 1).handleAfter.bck.name = demoObject.bck.name ∧
    (Object.get_object demoObject okClient "" 1).handleAfter.obj_name = demoObject.obj_name ∧
    (Object.put_object demoObject okClient okFs "/tmp/cat.png").issued.length = 1 ∧
    (Object.put_object demoObject okClient okFs "/tmp/cat.png").handleAfter = demoObject ∧
    (Object.delete_object demoObject okClient).issued.length = 1 ∧
    (Object.delete_object demoObject okClient).handleAfter = demoObject :=
  one_request_per_call demoObject okClient okFs "/tmp/cat.png" [1, 2, 3] "" 1 rfl

end AIStore
